import Mathlib

/-!
Verification of the SamGlasses TTS server (`src/tts-server/server.py`).

The server is a single-process `http.server.HTTPServer` (not a threading
server), so connections are accepted and handled strictly one at a time.
We therefore embed the request pipeline as a state-transition function:
the mutable state is the on-disk cache directory (a finite map from file
name to file bytes), and each HTTP request is processed atomically with
respect to the others, exactly as the serialized accept loop does.

External pieces are modelled at their interfaces:
  * `json.loads` (Python stdlib) is modelled by giving the handler the
    parse outcome directly: `none` for a `JSONDecodeError`, `some v`
    for the decoded JSON value (objects are the resulting dicts, i.e.
    association lists with distinct keys).
  * the `edge-tts` subprocess is an opaque `Engine`: for a (voice, text)
    pair it either completes with a return code and stderr text, or
    times out; in both cases it reports the bytes (if any) it managed to
    write to the `--write-media` output path before finishing -- the
    source passes the final cache path as that output path.
  * `hashlib.md5` is implemented in full below (RFC 1321 over Nat
    arithmetic mod 2^32) so cache keys are computed exactly as the
    source computes them.
-/

namespace TTS

/-! ### MD5 (hashlib.md5(...).hexdigest()) -/

/-- 32-bit truncation. -/
def mask32 (x : Nat) : Nat := x % 4294967296

/-- 32-bit bitwise complement. -/
def not32 (x : Nat) : Nat := 4294967295 - mask32 x

/-- 32-bit left rotation. -/
def rotl32 (x n : Nat) : Nat :=
  mask32 ((mask32 x <<< n) ||| (mask32 x >>> (32 - n)))

/-- The 64 MD5 sine-derived constants. -/
def md5K : List Nat :=
  [0xd76aa478, 0xe8c7b756, 0x242070db, 0xc1bdceee,
   0xf57c0faf, 0x4787c62a, 0xa8304613, 0xfd469501,
   0x698098d8, 0x8b44f7af, 0xffff5bb1, 0x895cd7be,
   0x6b901122, 0xfd987193, 0xa679438e, 0x49b40821,
   0xf61e2562, 0xc040b340, 0x265e5a51, 0xe9b6c7aa,
   0xd62f105d, 0x02441453, 0xd8a1e681, 0xe7d3fbc8,
   0x21e1cde6, 0xc33707d6, 0xf4d50d87, 0x455a14ed,
   0xa9e3e905, 0xfcefa3f8, 0x676f02d9, 0x8d2a4c8a,
   0xfffa3942, 0x8771f681, 0x6d9d6122, 0xfde5380c,
   0xa4beea44, 0x4bdecfa9, 0xf6bb4b60, 0xbebfbc70,
   0x289b7ec6, 0xeaa127fa, 0xd4ef3085, 0x04881d05,
   0xd9d4d039, 0xe6db99e5, 0x1fa27cf8, 0xc4ac5665,
   0xf4292244, 0x432aff97, 0xab9423a7, 0xfc93a039,
   0x655b59c3, 0x8f0ccc92, 0xffeff47d, 0x85845dd1,
   0x6fa87e4f, 0xfe2ce6e0, 0xa3014314, 0x4e0811a1,
   0xf7537e82, 0xbd3af235, 0x2ad7d2bb, 0xeb86d391]

/-- The 64 MD5 per-round shift amounts. -/
def md5S : List Nat :=
  [7, 12, 17, 22, 7, 12, 17, 22, 7, 12, 17, 22, 7, 12, 17, 22,
   5,  9, 14, 20, 5,  9, 14, 20, 5,  9, 14, 20, 5,  9, 14, 20,
   4, 11, 16, 23, 4, 11, 16, 23, 4, 11, 16, 23, 4, 11, 16, 23,
   6, 10, 15, 21, 6, 10, 15, 21, 6, 10, 15, 21, 6, 10, 15, 21]

/-- One MD5 round: given the round index `i`, the 16 message words `M`,
and the running `(a, b, c, d)`, produce the next `(a, b, c, d)`. -/
def md5Round (M : List Nat) (st : Nat × Nat × Nat × Nat) (i : Nat) :
    Nat × Nat × Nat × Nat :=
  let (a, b, c, d) := st
  let f :=
    if i < 16 then (b &&& c) ||| (not32 b &&& d)
    else if i < 32 then (d &&& b) ||| (not32 d &&& c)
    else if i < 48 then b ^^^ c ^^^ d
    else c ^^^ (b ||| not32 d)
  let g :=
    if i < 16 then i
    else if i < 32 then (5 * i + 1) % 16
    else if i < 48 then (3 * i + 5) % 16
    else (7 * i) % 16
  let F := mask32 (f + a + md5K.getD i 0 + M.getD g 0)
  (d, mask32 (b + rotl32 F (md5S.getD i 0)), b, c)

/-- Decode a 64-byte chunk into 16 little-endian 32-bit words. -/
def md5Words (chunk : List Nat) : List Nat :=
  (List.range 16).map fun j =>
    chunk.getD (4 * j) 0 + 256 * chunk.getD (4 * j + 1) 0 +
    65536 * chunk.getD (4 * j + 2) 0 + 16777216 * chunk.getD (4 * j + 3) 0

/-- Process one 64-byte chunk into the running digest state. -/
def md5Chunk (chunk : List Nat) (st : Nat × Nat × Nat × Nat) :
    Nat × Nat × Nat × Nat :=
  let (a0, b0, c0, d0) := st
  let (a, b, c, d) := (List.range 64).foldl (md5Round (md5Words chunk)) st
  (mask32 (a0 + a), mask32 (b0 + b), mask32 (c0 + c), mask32 (d0 + d))

/-- Fold the digest state over the chunks of the padded message; `fuel` is
the exact number of 64-byte chunks, so this structural recursion consumes
the whole message. -/
def md5Loop : Nat → List Nat → Nat × Nat × Nat × Nat → Nat × Nat × Nat × Nat
  | 0, _, st => st
  | n + 1, bs, st => md5Loop n (bs.drop 64) (md5Chunk (bs.take 64) st)

/-- MD5 padding: append `0x80`, zero bytes up to 56 mod 64, then the
original bit length as 8 little-endian bytes. -/
def md5Pad (msg : List Nat) : List Nat :=
  let len := msg.length
  let zeros := (119 - (len % 64)) % 64
  let bitLen := (8 * len) % 18446744073709551616
  msg ++ [0x80] ++ List.replicate zeros 0 ++
    (List.range 8).map fun j => (bitLen >>> (8 * j)) % 256

/-- Serialize one digest register as 4 little-endian bytes. -/
def word2bytes (w : Nat) : List Nat :=
  [w % 256, (w >>> 8) % 256, (w >>> 16) % 256, (w >>> 24) % 256]

/-- The MD5 digest of a byte sequence, as 16 bytes. -/
def md5Bytes (msg : List Nat) : List Nat :=
  let padded := md5Pad msg
  let (a, b, c, d) :=
    md5Loop (padded.length / 64) padded
      (0x67452301, 0xefcdab89, 0x98badcfe, 0x10325476)
  word2bytes a ++ word2bytes b ++ word2bytes c ++ word2bytes d

/-- One lowercase hex digit. -/
def hexDigit (n : Nat) : Char :=
  if n < 10 then Char.ofNat (48 + n) else Char.ofNat (87 + n)

/-- A byte as two lowercase hex digits. -/
def byteToHex (b : Nat) : List Char := [hexDigit (b / 16), hexDigit (b % 16)]

/-- `hashlib.md5(msg).hexdigest()`: 32 lowercase hex characters. -/
def md5Hex (msg : List Nat) : String :=
  ⟨(md5Bytes msg).foldr (fun b acc => byteToHex b ++ acc) []⟩

/-! ### UTF-8 encoding (`str.encode()`) -/

/-- UTF-8 encoding of a single code point. -/
def utf8EncodeNat (n : Nat) : List Nat :=
  if n < 0x80 then [n]
  else if n < 0x800 then
    [0xC0 ||| (n >>> 6), 0x80 ||| (n &&& 0x3F)]
  else if n < 0x10000 then
    [0xE0 ||| (n >>> 12), 0x80 ||| ((n >>> 6) &&& 0x3F), 0x80 ||| (n &&& 0x3F)]
  else
    [0xF0 ||| (n >>> 18), 0x80 ||| ((n >>> 12) &&& 0x3F),
     0x80 ||| ((n >>> 6) &&& 0x3F), 0x80 ||| (n &&& 0x3F)]

/-- `s.encode()`: the UTF-8 bytes of a string. -/
def utf8Bytes (s : String) : List Nat :=
  s.data.foldr (fun c acc => utf8EncodeNat c.toNat ++ acc) []

/-! ### JSON values and Python semantics -/

/-- A decoded JSON value, as produced by `json.loads`. Objects are the
resulting Python dicts, represented as association lists with distinct
keys. Numeric payloads are modelled as integers. -/
inductive JsonVal where
  | jnull : JsonVal
  | jbool (b : Bool) : JsonVal
  | jnum (n : Int) : JsonVal
  | jstr (s : String) : JsonVal
  | jarr (elems : List JsonVal) : JsonVal
  | jobj (fields : List (String × JsonVal)) : JsonVal

/-- Python truthiness (`if not text:`): `None`, `False`, `0`, `""`, `[]`
and `\x7b\x7d` are falsy; everything else is truthy. -/
def truthy : JsonVal → Bool
  | .jnull => false
  | .jbool b => b
  | .jnum n => n != 0
  | .jstr s => s ≠ ""
  | .jarr elems => !elems.isEmpty
  | .jobj fields => !fields.isEmpty

/-- `dict.get(k, dflt)`. -/
def jget (fields : List (String × JsonVal)) (k : String) (dflt : JsonVal) : JsonVal :=
  match fields.lookup k with
  | some v => v
  | none => dflt

mutual

/-- Python `repr` of a decoded JSON value, used by `str` on containers.
Container contents never reach the f-string in any verified scenario, so
`repr`'s quote-selection and escaping inside nested strings are not
modelled beyond the common case. -/
def pyRepr : JsonVal → String
  | .jnull => "None"
  | .jbool true => "True"
  | .jbool false => "False"
  | .jnum n => toString n
  | .jstr s => "'" ++ s ++ "'"
  | .jarr elems => "[" ++ pyReprElems elems ++ "]"
  | .jobj fields => "\x7b" ++ pyReprFields fields ++ "\x7d"

/-- Comma-joined `repr`s of list elements. -/
def pyReprElems : List JsonVal → String
  | [] => ""
  | [v] => pyRepr v
  | v :: rest => pyRepr v ++ ", " ++ pyReprElems rest

/-- Comma-joined `'key': repr(value)` pairs of a dict. -/
def pyReprFields : List (String × JsonVal) → String
  | [] => ""
  | [kv] => "'" ++ kv.1 ++ "': " ++ pyRepr kv.2
  | kv :: rest => "'" ++ kv.1 ++ "': " ++ pyRepr kv.2 ++ ", " ++ pyReprFields rest

end

/-- Python `str`, as applied by the f-string `f"{voice}:{text}"`:
identity on strings, `repr` otherwise. -/
def pyStr : JsonVal → String
  | .jstr s => s
  | v => pyRepr v

/-- One lowercase-hex group of four digits, for `\uXXXX` escapes. -/
def hex4 (n : Nat) : List Char :=
  [hexDigit (n / 4096 % 16), hexDigit (n / 256 % 16),
   hexDigit (n / 16 % 16), hexDigit (n % 16)]

/-- `json.dumps` escaping of one character (default `ensure_ascii=True`):
short escapes for the common controls, `\uXXXX` (surrogate pairs above
the BMP) for other controls and all non-ASCII. -/
def jsonEscapeChar (c : Char) : List Char :=
  let n := c.toNat
  if c = '"' then ['\\', '"']
  else if c = '\\' then ['\\', '\\']
  else if c = '\n' then ['\\', 'n']
  else if c = '\t' then ['\\', 't']
  else if c = '\r' then ['\\', 'r']
  else if n = 8 then ['\\', 'b']
  else if n = 12 then ['\\', 'f']
  else if n < 32 || n > 126 then
    if n < 65536 then '\\' :: 'u' :: hex4 n
    else ('\\' :: 'u' :: hex4 (55296 + (n - 65536) / 1024)) ++
         ('\\' :: 'u' :: hex4 (56320 + (n - 65536) % 1024))
  else [c]

/-- `json.dumps` of a string value. -/
def jsonQuote (s : String) : String :=
  ⟨'"' :: s.data.foldr (fun c acc => jsonEscapeChar c ++ acc) ['"']⟩

/-! ### Server model -/

/-- Default of `TTS_VOICE` (`os.environ.get("TTS_VOICE", "en-US-AvaNeural")`). -/
def defaultVoice : String := "en-US-AvaNeural"

/-- The speech endpoint path. -/
def speechPath : String := "/v1/audio/speech"

/-- The cache-key derivation of `do_POST`:
`hashlib.md5(f"{voice}:{text}".encode()).hexdigest()` applied to the
already-stringified voice and text. -/
def deriveKey (voice text : String) : String :=
  md5Hex (utf8Bytes (voice ++ ":" ++ text))

/-- The cache file name `f"{cache_key}.mp3"`. The constant `CACHE_DIR`
prefix added by `os.path.join` is dropped: joining with a fixed directory
is injective in the file name. -/
def cachePath (voice text : String) : String :=
  deriveKey voice text ++ ".mp3"

/-- The mutable server state: the cache directory, a finite map from
file name to file bytes (`none` = file absent). -/
structure ServerState where
  cache : List (String × List Nat)
deriving DecidableEq

/-- Writing a file (or nothing) into the cache directory. -/
def ServerState.writeFile (st : ServerState) (path : String) :
    Option (List Nat) → ServerState
  | none => st
  | some bytes => ⟨(path, bytes) :: st.cache⟩

/-- What one `edge-tts` invocation does: complete with a return code and
stderr text, or hit the 30-second timeout. In both cases `written` is the
content (if any) the process left at the `--write-media` output path --
the source passes the final cache path as that output path, so failed or
timed-out runs can leave bytes there. -/
inductive EngineOutcome where
  | completed (returncode : Int) (stderr : String) (written : Option (List Nat))
  | timedOut (written : Option (List Nat))
deriving DecidableEq

/-- The opaque external synthesis engine, as a map from the `--voice` and
`--text` arguments to what its invocation does. -/
abbrev Engine : Type := String → String → EngineOutcome

/-- The outcome the handler produces for one request: a success response
(`send_response` + headers + body), an error page (`send_error`), or an
unhandled Python exception, which aborts the connection without any
HTTP response. -/
inductive HttpOutcome where
  | response (status : Nat) (headers : List (String × String)) (body : List Nat)
  | err (status : Nat) (message : String)
  | crash (exception : String)
deriving DecidableEq

/-- The HTTP status carried by an outcome, if a response is sent at all. -/
def outcomeStatus : HttpOutcome → Option Nat
  | .response s _ _ => some s
  | .err s _ => some s
  | .crash _ => none

/-- An inbound HTTP request. `body` is the outcome of `json.loads` on the
request body: `none` models a `JSONDecodeError`. -/
structure Request where
  method : String
  path : String
  body : Option JsonVal

/-- The 200 response the handler builds for served audio: Content-Type
`audio/mpeg` and Content-Length `str(len(audio_data))`. -/
def okAudio (audio_data : List Nat) : HttpOutcome :=
  .response 200
    [("Content-Type", "audio/mpeg"),
     ("Content-Length", toString audio_data.length)]
    audio_data

/-- `TTSHandler.do_POST`, embedded as a state transition. Returns the new
cache state, the HTTP outcome, and the number of synthesis-engine
invocations performed (0 or 1).

Crash cases, faithful to the Python: a decoded body that is not a dict
hits `data.get` and raises `AttributeError`; a non-string `voice`/`text`
reaching `subprocess.run`'s argument list raises `TypeError`; an engine
run that exits 0 without creating the output file makes
`open(cache_path, "rb")` raise `FileNotFoundError`. -/
def do_POST (engine : Engine) (VOICE : String) (st : ServerState)
    (req : Request) : ServerState × HttpOutcome × Nat :=
  if req.path ≠ speechPath then (st, .err 404 "Not Found", 0)
  else
    match req.body with
    | none => (st, .err 400 "Invalid JSON", 0)
    | some (.jobj fields) =>
      let text := jget fields "input" (jget fields "text" (.jstr ""))
      let voice := jget fields "voice" (.jstr VOICE)
      if truthy text = false then (st, .err 400 "No text provided", 0)
      else
        let cache_path := deriveKey (pyStr voice) (pyStr text) ++ ".mp3"
        match st.cache.lookup cache_path with
        | some audio_data => (st, okAudio audio_data, 0)
        | none =>
          match voice, text with
          | .jstr vs, .jstr ts =>
            match engine vs ts with
            | .timedOut w => (st.writeFile cache_path w, .err 500 "TTS timeout", 1)
            | .completed rc stderr w =>
              if rc ≠ 0 then
                (st.writeFile cache_path w, .err 500 ("TTS failed: " ++ stderr), 1)
              else
                match (st.writeFile cache_path w).cache.lookup cache_path with
                | some audio_data => (st.writeFile cache_path w, okAudio audio_data, 1)
                | none => (st.writeFile cache_path w, .crash "FileNotFoundError", 1)
          | _, _ => (st, .crash "TypeError", 0)
    | some _ => (st, .crash "AttributeError", 0)

/-- The body `json.dumps(\x7b"status": "ok", "voice": VOICE\x7d)` of the
health probe (default separators put a space after each colon and comma). -/
def healthBody (VOICE : String) : String :=
  "\x7b\"status\": \"ok\", \"voice\": " ++ jsonQuote VOICE ++ "\x7d"

/-- `TTSHandler.do_GET`. -/
def do_GET (VOICE : String) (st : ServerState) (req : Request) :
    ServerState × HttpOutcome × Nat :=
  if req.path = "/health" then
    (st, .response 200 [("Content-Type", "application/json")]
          (utf8Bytes (healthBody VOICE)), 0)
  else (st, .err 404 "Not Found", 0)

/-- Dispatch of one request. `TTSHandler` defines only `do_GET` and
`do_POST`; for any other method `BaseHTTPRequestHandler.handle_one_request`
answers `501 Unsupported method ('<METHOD>')`. -/
def handleRequest (engine : Engine) (VOICE : String) (st : ServerState)
    (req : Request) : ServerState × HttpOutcome × Nat :=
  if req.method = "GET" then do_GET VOICE st req
  else if req.method = "POST" then do_POST engine VOICE st req
  else (st, .err 501 ("Unsupported method ('" ++ req.method ++ "')"), 0)

/-- The serialized accept loop of the single-threaded `HTTPServer`:
requests (concurrent clients included -- the OS queues their
connections) are processed one after the other. Returns the final state,
the per-request outcomes in order, and the total number of
synthesis-engine invocations. -/
def runRequests (engine : Engine) (VOICE : String) :
    List Request → ServerState → ServerState × List HttpOutcome × Nat
  | [], st => (st, [], 0)
  | r :: rs, st =>
    let res1 := handleRequest engine VOICE st r
    let res2 := runRequests engine VOICE rs res1.1
    (res2.1, res1.2.1 :: res2.2.1, res1.2.2 + res2.2.2)

/-- The POST request a client sends for (voice, text). -/
def mkSpeechReq (voice text : String) : Request :=
  { method := "POST", path := speechPath,
    body := some (.jobj [("input", .jstr text), ("voice", .jstr voice)]) }

/-- The empty cache (fresh `CACHE_DIR`). -/
def emptyState : ServerState := ⟨[]⟩

/-! ### Concrete engine behaviors used in witnesses and counterexamples -/

/-- An engine that always succeeds, writing the byte `9`. -/
def engineOkW : Engine := fun _ _ => .completed 0 "" (some [9])

/-- An engine that always exits non-zero with stderr `"boom"`, leaving no
output file. -/
def engineFailW : Engine := fun _ _ => .completed 1 "boom" none

/-- An engine whose run hits the 30-second timeout after writing two
bytes to the output path -- the cache path, in the source. -/
def enginePartialTimeoutW : Engine := fun _ _ => .timedOut (some [73, 68])

/-- The complete audio a synthesis would produce, for the truncation
scenario. -/
def completeAudio : List Nat := [255, 251, 144, 0, 1, 2]

/-- An engine whose run times out after writing only the first three
bytes of `completeAudio` to the output path. -/
def engineTruncatedW : Engine := fun _ _ => .timedOut (some (completeAudio.take 3))

end TTS

set_option maxRecDepth 10000

-- Sanity checks of the MD5 implementation against RFC 1321 test vectors.
example : TTS.md5Hex (TTS.utf8Bytes "") = "d41d8cd98f00b204e9800998ecf8427e" := by decide
example : TTS.md5Hex (TTS.utf8Bytes "abc") = "900150983cd24fb0d6963f7d28e17f72" := by decide

namespace TTS

/-! ### Supporting lemmas -/

/-- Writing a file under one name does not disturb the entry under a
different name. -/
theorem lookup_writeFile_of_ne (st : ServerState) (p k : String)
    (w : Option (List Nat)) (h : ¬ p = k) :
    ((st.writeFile p w).cache).lookup k = st.cache.lookup k := by
  cases w with
  | none => rfl
  | some bytes =>
    have hk : (k == p) = false := beq_eq_false_iff_ne.mpr fun hk => h hk.symm
    simp [ServerState.writeFile, List.lookup, hk]

/-- A cache entry survives a write that targets an absent file name. -/
theorem lookup_writeFile_keeps (st : ServerState) (p k : String)
    (w : Option (List Nat)) (B : List Nat)
    (hp : st.cache.lookup p = none) (h : st.cache.lookup k = some B) :
    ((st.writeFile p w).cache).lookup k = some B := by
  have hpk : ¬ p = k := fun e => by rw [e, h] at hp; cases hp
  rw [lookup_writeFile_of_ne st p k w hpk]; exact h

/-- `do_POST` never removes or overwrites an existing cache entry: the
only write happens on a cache miss, at the missing file name. -/
theorem do_POST_preserves (engine : Engine) (VOICE : String)
    (st : ServerState) (r : Request) (k : String) (B : List Nat)
    (h : st.cache.lookup k = some B) :
    ((do_POST engine VOICE st r).1).cache.lookup k = some B := by
  unfold do_POST
  dsimp only
  repeat' split
  all_goals first
    | exact h
    | exact lookup_writeFile_keeps st _ k _ B (by assumption) h

/-- `do_GET` never touches the cache. -/
theorem do_GET_preserves (VOICE : String) (st : ServerState) (r : Request)
    (k : String) (B : List Nat) (h : st.cache.lookup k = some B) :
    ((do_GET VOICE st r).1).cache.lookup k = some B := by
  unfold do_GET
  split <;> exact h

/-- Handling any single request preserves every existing cache entry. -/
theorem handleRequest_preserves (engine : Engine) (VOICE : String)
    (st : ServerState) (r : Request) (k : String) (B : List Nat)
    (h : st.cache.lookup k = some B) :
    ((handleRequest engine VOICE st r).1).cache.lookup k = some B := by
  unfold handleRequest
  split
  · exact do_GET_preserves VOICE st r k B h
  split
  · exact do_POST_preserves engine VOICE st r k B h
  · exact h

/-- Handling any sequence of requests preserves every existing cache
entry. -/
theorem runRequests_preserves (engine : Engine) (VOICE : String)
    (rs : List Request) (st : ServerState) (k : String) (B : List Nat)
    (h : st.cache.lookup k = some B) :
    ((runRequests engine VOICE rs st).1).cache.lookup k = some B := by
  induction rs generalizing st with
  | nil => exact h
  | cons r rs ih =>
    exact ih _ (handleRequest_preserves engine VOICE st r k B h)

/-- On a canonical speech request, dispatch, parsing and key derivation
reduce definitionally, leaving only the emptiness check on the text. -/
theorem handleRequest_speech_if (engine : Engine) (VOICE : String)
    (st : ServerState) (v t : String) :
    handleRequest engine VOICE st (mkSpeechReq v t) =
      if truthy (.jstr t) = false then (st, .err 400 "No text provided", 0)
      else
        match st.cache.lookup (cachePath v t) with
        | some audio_data => (st, okAudio audio_data, 0)
        | none =>
          match engine v t with
          | .timedOut w =>
              (st.writeFile (cachePath v t) w, .err 500 "TTS timeout", 1)
          | .completed rc stderr w =>
            if rc ≠ 0 then
              (st.writeFile (cachePath v t) w,
               .err 500 ("TTS failed: " ++ stderr), 1)
            else
              match ((st.writeFile (cachePath v t) w).cache).lookup (cachePath v t) with
              | some audio_data =>
                  (st.writeFile (cachePath v t) w, okAudio audio_data, 1)
              | none =>
                  (st.writeFile (cachePath v t) w, .crash "FileNotFoundError", 1) :=
  rfl

/-- Full reduction of the handler on a canonical speech request with
non-empty text: the cache/engine case split of the source is all that
remains. -/
theorem handleRequest_speech_eq (engine : Engine) (VOICE : String)
    (st : ServerState) (v t : String) (ht : t ≠ "") :
    handleRequest engine VOICE st (mkSpeechReq v t) =
      match st.cache.lookup (cachePath v t) with
      | some audio_data => (st, okAudio audio_data, 0)
      | none =>
        match engine v t with
        | .timedOut w =>
            (st.writeFile (cachePath v t) w, .err 500 "TTS timeout", 1)
        | .completed rc stderr w =>
          if rc ≠ 0 then
            (st.writeFile (cachePath v t) w,
             .err 500 ("TTS failed: " ++ stderr), 1)
          else
            match ((st.writeFile (cachePath v t) w).cache).lookup (cachePath v t) with
            | some audio_data =>
                (st.writeFile (cachePath v t) w, okAudio audio_data, 1)
            | none =>
                (st.writeFile (cachePath v t) w, .crash "FileNotFoundError", 1) := by
  rw [handleRequest_speech_if]
  exact if_neg (by simp [truthy, ht])

/-- Cache hit: the entry is served unchanged, with no engine invocation. -/
theorem handleRequest_hit (engine : Engine) (VOICE : String)
    (st : ServerState) (v t : String) (B : List Nat) (ht : t ≠ "")
    (h : st.cache.lookup (cachePath v t) = some B) :
    handleRequest engine VOICE st (mkSpeechReq v t) = (st, okAudio B, 0) := by
  rw [handleRequest_speech_eq engine VOICE st v t ht, h]

/-- Cache miss with a successful engine run that wrote `B`: the file is
published under the key and served, with one engine invocation. -/
theorem handleRequest_miss_ok (engine : Engine) (VOICE : String)
    (st : ServerState) (v t : String) (B : List Nat) (e : String) (ht : t ≠ "")
    (hmiss : st.cache.lookup (cachePath v t) = none)
    (heng : engine v t = .completed 0 e (some B)) :
    handleRequest engine VOICE st (mkSpeechReq v t)
      = (⟨(cachePath v t, B) :: st.cache⟩, okAudio B, 1) := by
  rw [handleRequest_speech_eq engine VOICE st v t ht, hmiss]
  simp [heng, ServerState.writeFile, List.lookup]

/-- Cache miss with an engine run that exited 0 without creating the
output file: serving it crashes with `FileNotFoundError`. -/
theorem handleRequest_miss_ok_nofile (engine : Engine) (VOICE : String)
    (st : ServerState) (v t : String) (e : String) (ht : t ≠ "")
    (hmiss : st.cache.lookup (cachePath v t) = none)
    (heng : engine v t = .completed 0 e none) :
    handleRequest engine VOICE st (mkSpeechReq v t)
      = (st, .crash "FileNotFoundError", 1) := by
  rw [handleRequest_speech_eq engine VOICE st v t ht, hmiss]
  simp [heng, ServerState.writeFile, hmiss]

/-- Cache miss with a non-zero engine exit: 500 with the stderr text,
whatever the engine left at the output path is kept. -/
theorem handleRequest_miss_fail (engine : Engine) (VOICE : String)
    (st : ServerState) (v t : String) (rc : Int) (e : String)
    (w : Option (List Nat)) (ht : t ≠ "")
    (hmiss : st.cache.lookup (cachePath v t) = none)
    (heng : engine v t = .completed rc e w) (hrc : rc ≠ 0) :
    handleRequest engine VOICE st (mkSpeechReq v t)
      = (st.writeFile (cachePath v t) w, .err 500 ("TTS failed: " ++ e), 1) := by
  rw [handleRequest_speech_eq engine VOICE st v t ht, hmiss]
  simp [heng, hrc]

/-- Cache miss with a timed-out engine run: 500 "TTS timeout", whatever
the engine left at the output path is kept. -/
theorem handleRequest_miss_timeout (engine : Engine) (VOICE : String)
    (st : ServerState) (v t : String) (w : Option (List Nat)) (ht : t ≠ "")
    (hmiss : st.cache.lookup (cachePath v t) = none)
    (heng : engine v t = .timedOut w) :
    handleRequest engine VOICE st (mkSpeechReq v t)
      = (st.writeFile (cachePath v t) w, .err 500 "TTS timeout", 1) := by
  rw [handleRequest_speech_eq engine VOICE st v t ht, hmiss]
  simp [heng]

/-- Unfolding one step of the serialized request loop. -/
theorem runRequests_cons (engine : Engine) (VOICE : String) (r : Request)
    (rs : List Request) (st : ServerState) :
    runRequests engine VOICE (r :: rs) st =
      ((runRequests engine VOICE rs (handleRequest engine VOICE st r).1).1,
       (handleRequest engine VOICE st r).2.1 ::
         (runRequests engine VOICE rs (handleRequest engine VOICE st r).1).2.1,
       (handleRequest engine VOICE st r).2.2 +
         (runRequests engine VOICE rs (handleRequest engine VOICE st r).1).2.2) :=
  rfl

/-- A run of identical speech requests against a cache that already holds
their entry: every response serves the entry, the state never changes,
and the engine is never invoked. -/
theorem runRequests_hits (engine : Engine) (VOICE : String) (v t : String)
    (B : List Nat) (n : Nat) (st : ServerState) (ht : t ≠ "")
    (h : st.cache.lookup (cachePath v t) = some B) :
    runRequests engine VOICE (List.replicate n (mkSpeechReq v t)) st
      = (st, List.replicate n (okAudio B), 0) := by
  induction n with
  | zero => rfl
  | succ n ih =>
    rw [List.replicate_succ, runRequests_cons,
      handleRequest_hit engine VOICE st v t B ht h]
    dsimp only
    rw [ih]
    rfl

/-- A successful (200) speech response implies the served bytes are the
cache entry under the request's key in the post-state. -/
theorem speech_ok_cached (engine : Engine) (VOICE : String)
    (st st' : ServerState) (v t : String) (B : List Nat) (n : Nat)
    (ht : t ≠ "")
    (h : handleRequest engine VOICE st (mkSpeechReq v t) = (st', okAudio B, n)) :
    st'.cache.lookup (cachePath v t) = some B := by
  rw [handleRequest_speech_eq engine VOICE st v t ht] at h
  split at h
  case h_1 audio heq =>
    injection h with h1 h2
    injection h2 with h2 h3
    unfold okAudio at h2
    injection h2 with hs hh hb
    subst h1; subst hb
    exact heq
  case h_2 heq =>
    split at h
    case h_1 w =>
      injection h with h1 h2
      injection h2 with h2 h3
      unfold okAudio at h2
      cases h2
    case h_2 rc e w =>
      split at h
      · injection h with h1 h2
        injection h2 with h2 h3
        unfold okAudio at h2
        cases h2
      · split at h
        case h_1 audio heq2 =>
          injection h with h1 h2
          injection h2 with h2 h3
          unfold okAudio at h2
          injection h2 with hs hh hb
          subst h1; subst hb
          exact heq2
        case h_2 heq2 =>
          injection h with h1 h2
          injection h2 with h2 h3
          unfold okAudio at h2
          cases h2

/-- A POST to the speech endpoint whose decoded object yields a falsy
text value (`data.get("input", data.get("text", ""))`) is rejected with
400 "No text provided", before any cache or engine work. -/
theorem post_falsy_text_400 (engine : Engine) (VOICE : String)
    (st : ServerState) (fields : List (String × JsonVal))
    (h : truthy (jget fields "input" (jget fields "text" (.jstr ""))) = false) :
    handleRequest engine VOICE st
      { method := "POST", path := speechPath, body := some (.jobj fields) }
      = (st, .err 400 "No text provided", 0) := by
  simp [handleRequest, do_POST, speechPath, h]

/-! ### Claims -/

/-- C1: N requests with identical (voice, text) arriving at a cache with
no entry for their key -- processed serially, as the single-threaded
`HTTPServer` handles even concurrent connections -- cause exactly one
invocation of the synthesis engine, and every caller receives the same
200 response carrying the engine's bytes. (Stated for a deterministic
engine whose run succeeds, which the claim's "all N callers receive
identical audio bytes" presupposes.) -/
theorem dedup_single_synthesis (engine : Engine) (VOICE : String)
    (st : ServerState) (v t : String) (B : List Nat) (e : String) (N : Nat)
    (ht : t ≠ "")
    (heng : engine v t = .completed 0 e (some B))
    (hmiss : st.cache.lookup (cachePath v t) = none) :
    (runRequests engine VOICE (List.replicate (N + 1) (mkSpeechReq v t)) st).2.2 = 1 ∧
    (runRequests engine VOICE (List.replicate (N + 1) (mkSpeechReq v t)) st).2.1
      = List.replicate (N + 1) (okAudio B) := by
  rw [List.replicate_succ, runRequests_cons,
    handleRequest_miss_ok engine VOICE st v t B e ht hmiss heng]
  dsimp only
  rw [runRequests_hits engine VOICE v t B N _ ht (by simp [List.lookup])]
  exact ⟨rfl, rfl⟩

/-- C1 witness: three clients asking for the same phrase against an empty
cache; one synthesis, three identical 200 responses. -/
theorem dedup_single_synthesis_witness :
    (runRequests engineOkW defaultVoice
        (List.replicate 3 (mkSpeechReq defaultVoice "hello")) emptyState).2.2 = 1 ∧
    (runRequests engineOkW defaultVoice
        (List.replicate 3 (mkSpeechReq defaultVoice "hello")) emptyState).2.1
      = List.replicate 3 (okAudio [9]) :=
  dedup_single_synthesis engineOkW defaultVoice emptyState defaultVoice "hello"
    [9] "" 2 (by decide) rfl rfl

/-- C2 (code bug): an engine run that times out after writing two bytes
to the output path -- which the source sets to the final cache path --
leaves a cache entry behind, and the next identical request serves those
bytes from cache with no re-synthesis, where the claim requires no entry
and a fresh synthesis attempt. -/
theorem timeout_poisons_cache :
    (handleRequest enginePartialTimeoutW defaultVoice emptyState
        (mkSpeechReq "v" "hello")).2.1 = .err 500 "TTS timeout" ∧
    ((handleRequest enginePartialTimeoutW defaultVoice emptyState
        (mkSpeechReq "v" "hello")).1).cache.lookup (cachePath "v" "hello")
      = some [73, 68] ∧
    (handleRequest enginePartialTimeoutW defaultVoice
        (handleRequest enginePartialTimeoutW defaultVoice emptyState
          (mkSpeechReq "v" "hello")).1
        (mkSpeechReq "v" "hello")).2 = (okAudio [73, 68], 0) := by
  decide

/-- C3 (code bug): there is no temporary-location write or atomic rename
in the source -- the engine writes straight to the final cache path -- so
an interrupted (timed-out) write leaves a truncated entry visible under
the key, and a subsequent reader is served that truncated content. -/
theorem truncated_entry_served :
    ((handleRequest engineTruncatedW defaultVoice emptyState
        (mkSpeechReq "v" "hi")).1).cache.lookup (cachePath "v" "hi")
      = some (completeAudio.take 3) ∧
    completeAudio.take 3 ≠ completeAudio ∧
    (handleRequest engineTruncatedW defaultVoice
        (handleRequest engineTruncatedW defaultVoice emptyState
          (mkSpeechReq "v" "hi")).1
        (mkSpeechReq "v" "hi")).2.1 = okAudio (completeAudio.take 3) := by
  decide

/-- C4 counterexample: key derivation hashes `f"{voice}:{text}"`, so the
distinct pairs ("a:b", "c") and ("a", "b:c") encode to the same string
"a:b:c" and collide -- the derivation is not injective. -/
theorem deriveKey_collision :
    deriveKey "a:b" "c" = deriveKey "a" "b:c" ∧
    ¬ ((("a:b" : String), ("c" : String)) = (("a" : String), ("b:c" : String))) :=
  ⟨rfl, by decide⟩

/-- C4 (amended): the key derivation is a pure deterministic function of
(voice, text), but it depends only on the encoding `voice ++ ":" ++ text`,
so any two pairs with equal encodings receive equal keys. -/
theorem deriveKey_deterministic_encoding (v t v2 t2 : String)
    (h : v ++ ":" ++ t = v2 ++ ":" ++ t2) :
    deriveKey v t = deriveKey v t ∧ deriveKey v t = deriveKey v2 t2 :=
  ⟨rfl, by unfold deriveKey; rw [h]⟩

/-- C4 witness: the colliding encodings of ("a:b", "c") and ("a", "b:c"). -/
theorem deriveKey_deterministic_encoding_witness :
    ("a:b" ++ ":" ++ "c" = "a" ++ ":" ++ "b:c") ∧
    (deriveKey "a:b" "c" = deriveKey "a:b" "c" ∧
     deriveKey "a:b" "c" = deriveKey "a" "b:c") :=
  ⟨rfl, deriveKey_deterministic_encoding "a:b" "c" "a" "b:c" rfl⟩

/-- C5: after a speech request for (v, t) succeeded with bytes B, any
later identical request -- with arbitrary other requests in between --
returns exactly B with zero engine invocations. -/
theorem cache_round_trip (engine : Engine) (VOICE : String)
    (st0 st1 : ServerState) (v t : String) (B : List Nat) (n : Nat)
    (rs : List Request) (ht : t ≠ "")
    (h1 : handleRequest engine VOICE st0 (mkSpeechReq v t) = (st1, okAudio B, n)) :
    handleRequest engine VOICE (runRequests engine VOICE rs st1).1
        (mkSpeechReq v t)
      = ((runRequests engine VOICE rs st1).1, okAudio B, 0) := by
  have hc := speech_ok_cached engine VOICE st0 st1 v t B n ht h1
  have hc2 := runRequests_preserves engine VOICE rs st1 (cachePath v t) B hc
  exact handleRequest_hit engine VOICE _ v t B ht hc2

/-- C5 witness: a successful request for "hello", one intervening request
for "bye", then the identical request served byte-identically from cache
with no engine invocation. -/
theorem cache_round_trip_witness :
    handleRequest engineOkW defaultVoice
        (runRequests engineOkW defaultVoice [mkSpeechReq defaultVoice "bye"]
          (⟨[(cachePath defaultVoice "hello", [9])]⟩ : ServerState)).1
        (mkSpeechReq defaultVoice "hello")
      = ((runRequests engineOkW defaultVoice [mkSpeechReq defaultVoice "bye"]
          (⟨[(cachePath defaultVoice "hello", [9])]⟩ : ServerState)).1,
         okAudio [9], 0) :=
  cache_round_trip engineOkW defaultVoice emptyState
    (⟨[(cachePath defaultVoice "hello", [9])]⟩ : ServerState)
    defaultVoice "hello" [9] 1 [mkSpeechReq defaultVoice "bye"]
    (by decide) (by decide)

/-- C8: on the speech endpoint, every successful response is a 200 with
Content-Type audio/mpeg, a Content-Length equal to the body length, and a
body that is exactly the audio bytes stored under the request's key; a
non-zero engine exit yields 500 carrying the engine's stderr, and a
timeout yields 500 "TTS timeout". -/
theorem speech_response_contract (engine : Engine) (VOICE : String)
    (st : ServerState) (v t : String) (ht : t ≠ "") :
    (∀ s hdrs body,
        (handleRequest engine VOICE st (mkSpeechReq v t)).2.1
          = .response s hdrs body →
        s = 200 ∧
        hdrs = [("Content-Type", "audio/mpeg"),
                ("Content-Length", toString body.length)] ∧
        ((handleRequest engine VOICE st (mkSpeechReq v t)).1).cache.lookup
            (cachePath v t) = some body) ∧
    (∀ rc e w, st.cache.lookup (cachePath v t) = none →
        engine v t = .completed rc e w → rc ≠ 0 →
        (handleRequest engine VOICE st (mkSpeechReq v t)).2.1
          = .err 500 ("TTS failed: " ++ e)) ∧
    (∀ w, st.cache.lookup (cachePath v t) = none →
        engine v t = .timedOut w →
        (handleRequest engine VOICE st (mkSpeechReq v t)).2.1
          = .err 500 "TTS timeout") := by
  refine ⟨?_, ?_, ?_⟩
  · intro s hdrs body h
    rcases hl : st.cache.lookup (cachePath v t) with _ | audio
    · rcases he : engine v t with ⟨rc, e, w⟩ | w
      · by_cases hrc : rc = 0
        · subst hrc
          rcases hw : w with _ | B2
          · rw [hw] at he
            rw [handleRequest_miss_ok_nofile engine VOICE st v t e ht hl he] at h
            cases h
          · rw [hw] at he
            rw [handleRequest_miss_ok engine VOICE st v t B2 e ht hl he] at h ⊢
            dsimp only at h ⊢
            unfold okAudio at h
            injection h with hs hh hb
            subst hb; subst hs
            exact ⟨rfl, hh.symm, by simp [List.lookup]⟩
        · rw [handleRequest_miss_fail engine VOICE st v t rc e w ht hl he hrc] at h
          cases h
      · rw [handleRequest_miss_timeout engine VOICE st v t w ht hl he] at h
        cases h
    · rw [handleRequest_hit engine VOICE st v t audio ht hl] at h ⊢
      dsimp only at h ⊢
      unfold okAudio at h
      injection h with hs hh hb
      subst hb; subst hs
      exact ⟨rfl, hh.symm, hl⟩
  · intro rc e w hm he hrc
    rw [handleRequest_miss_fail engine VOICE st v t rc e w ht hm he hrc]
  · intro w hm he
    rw [handleRequest_miss_timeout engine VOICE st v t w ht hm he]

/-- C8 witness: a success, an engine failure and a timeout, each with the
stated response. -/
theorem speech_response_contract_witness :
    ((handleRequest engineOkW defaultVoice emptyState
        (mkSpeechReq "v" "x")).1).cache.lookup (cachePath "v" "x") = some [9] ∧
    (handleRequest engineFailW defaultVoice emptyState
        (mkSpeechReq "v" "x")).2.1 = .err 500 ("TTS failed: " ++ "boom") ∧
    (handleRequest enginePartialTimeoutW defaultVoice emptyState
        (mkSpeechReq "v" "x")).2.1 = .err 500 "TTS timeout" :=
  ⟨((speech_response_contract engineOkW defaultVoice emptyState "v" "x"
        (by decide)).1 200
      [("Content-Type", "audio/mpeg"), ("Content-Length", toString 1)] [9]
      (by decide)).2.2,
   (speech_response_contract engineFailW defaultVoice emptyState "v" "x"
        (by decide)).2.1 1 "boom" none rfl rfl (by decide),
   (speech_response_contract enginePartialTimeoutW defaultVoice emptyState "v" "x"
        (by decide)).2.2 (some [73, 68]) rfl rfl⟩

/-- C6 counterexample: text consisting of a single space is truthy in
Python, so the request is not rejected -- the engine is invoked and a 200
is returned, where the claim requires 400 and no work. -/
theorem whitespace_text_not_rejected :
    handleRequest engineOkW defaultVoice emptyState
        (mkSpeechReq defaultVoice " ")
      = (⟨[(cachePath defaultVoice " ", [9])]⟩, okAudio [9], 1) := by
  decide

/-- C6 (amended): a missing or empty (more generally, falsy) text field
is rejected with 400 "No text provided" before any cache lookup, cache
write or engine invocation; whitespace-only text is not trimmed and not
rejected. -/
theorem empty_text_rejected (engine : Engine) (VOICE : String)
    (st : ServerState) (fields : List (String × JsonVal))
    (h : truthy (jget fields "input" (jget fields "text" (.jstr ""))) = false) :
    handleRequest engine VOICE st
      { method := "POST", path := speechPath, body := some (.jobj fields) }
      = (st, .err 400 "No text provided", 0) :=
  post_falsy_text_400 engine VOICE st fields h

/-- C6 witness: the empty JSON object (missing text) is rejected with 400
and no side effects. -/
theorem empty_text_rejected_witness :
    truthy (jget [] "input" (jget [] "text" (.jstr ""))) = false ∧
    handleRequest engineOkW defaultVoice emptyState
      { method := "POST", path := speechPath, body := some (.jobj []) }
      = (emptyState, .err 400 "No text provided", 0) :=
  ⟨rfl, empty_text_rejected engineOkW defaultVoice emptyState [] rfl⟩

/-- C7 counterexample: a well-formed JSON body that is not an object (here
`[]`) reaches `data.get` and raises `AttributeError` -- the connection is
aborted with no HTTP response, not answered with 400. -/
theorem json_array_body_crashes :
    handleRequest engineOkW defaultVoice emptyState
        { method := "POST", path := speechPath, body := some (.jarr []) }
      = (emptyState, .crash "AttributeError", 0) ∧
    outcomeStatus (.crash "AttributeError") ≠ some 400 :=
  ⟨rfl, by decide⟩

/-- C7 (amended): a body that is not syntactically valid JSON is rejected
with 400 "Invalid JSON" and no side effects; a valid-JSON body that is
not an object instead crashes the handler. -/
theorem invalid_json_rejected (engine : Engine) (VOICE : String)
    (st : ServerState) :
    handleRequest engine VOICE st
      { method := "POST", path := speechPath, body := none }
      = (st, .err 400 "Invalid JSON", 0) :=
  rfl

/-- C9 counterexample: a PUT request is answered by the stdlib handler
with 501 "Unsupported method", not with the claimed 404. -/
theorem put_method_not_404 :
    handleRequest engineOkW defaultVoice emptyState
        { method := "PUT", path := "/health", body := none }
      = (emptyState, .err 501 "Unsupported method ('PUT')", 0) ∧
    (HttpOutcome.err 501 "Unsupported method ('PUT')")
      ≠ .err 404 "Not Found" :=
  ⟨rfl, by decide⟩

/-- C9 (amended): GET /health always answers 200 with the JSON status/
voice body and no state change; any other GET path and any other POST
path answer 404; requests with a method other than GET or POST answer
501 "Unsupported method", not 404. -/
theorem request_routing (engine : Engine) (VOICE : String)
    (st : ServerState) (p m : String) (b : Option JsonVal) :
    (handleRequest engine VOICE st { method := "GET", path := "/health", body := b }
       = (st, .response 200 [("Content-Type", "application/json")]
            (utf8Bytes (healthBody VOICE)), 0)) ∧
    (p ≠ "/health" →
      handleRequest engine VOICE st { method := "GET", path := p, body := b }
        = (st, .err 404 "Not Found", 0)) ∧
    (p ≠ speechPath →
      handleRequest engine VOICE st { method := "POST", path := p, body := b }
        = (st, .err 404 "Not Found", 0)) ∧
    (m ≠ "GET" → m ≠ "POST" →
      handleRequest engine VOICE st { method := m, path := p, body := b }
        = (st, .err 501 ("Unsupported method ('" ++ m ++ "')"), 0)) := by
  refine ⟨rfl, ?_, ?_, ?_⟩
  · intro hp
    simp [handleRequest, do_GET, hp]
  · intro hp
    simp [handleRequest, do_POST, hp]
  · intro h1 h2
    simp [handleRequest, h1, h2]

/-- C9 witness: the health probe, two unknown paths and an unknown
method, each with its concrete response. -/
theorem request_routing_witness :
    (handleRequest engineOkW defaultVoice emptyState
        { method := "GET", path := "/health", body := none }
      = (emptyState, .response 200 [("Content-Type", "application/json")]
            (utf8Bytes (healthBody defaultVoice)), 0)) ∧
    (handleRequest engineOkW defaultVoice emptyState
        { method := "GET", path := "/nope", body := none }
      = (emptyState, .err 404 "Not Found", 0)) ∧
    (handleRequest engineOkW defaultVoice emptyState
        { method := "POST", path := "/nope", body := none }
      = (emptyState, .err 404 "Not Found", 0)) ∧
    (handleRequest engineOkW defaultVoice emptyState
        { method := "PUT", path := "/nope", body := none }
      = (emptyState, .err 501 ("Unsupported method ('" ++ "PUT" ++ "')"), 0)) :=
  ⟨(request_routing engineOkW defaultVoice emptyState "/nope" "PUT" none).1,
   (request_routing engineOkW defaultVoice emptyState "/nope" "PUT" none).2.1
     (by decide),
   (request_routing engineOkW defaultVoice emptyState "/nope" "PUT" none).2.2.1
     (by decide),
   (request_routing engineOkW defaultVoice emptyState "/nope" "PUT" none).2.2.2
     (by decide) (by decide)⟩

/-- C10: an "input" field present but bound to a falsy JSON value -- or,
with "input" absent, a falsy "text" field -- is rejected with 400
"No text provided", exactly like a missing field, with no cache or
engine work. -/
theorem falsy_field_rejected (engine : Engine) (VOICE : String)
    (st : ServerState) (fields : List (String × JsonVal)) (v : JsonVal)
    (h : fields.lookup "input" = some v ∨
         (fields.lookup "input" = none ∧ fields.lookup "text" = some v))
    (hv : truthy v = false) :
    handleRequest engine VOICE st
      { method := "POST", path := speechPath, body := some (.jobj fields) }
      = (st, .err 400 "No text provided", 0) := by
  apply post_falsy_text_400
  rcases h with h | ⟨h1, h2⟩
  · simp [jget, h, hv]
  · simp [jget, h1, h2, hv]

/-- C10 witness: `"input": null` is rejected with 400 and no side
effects. -/
theorem falsy_field_rejected_witness :
    truthy .jnull = false ∧
    handleRequest engineOkW defaultVoice emptyState
      { method := "POST", path := speechPath,
        body := some (.jobj [("input", .jnull)]) }
      = (emptyState, .err 400 "No text provided", 0) :=
  ⟨rfl, falsy_field_rejected engineOkW defaultVoice emptyState
    [("input", .jnull)] .jnull (Or.inl rfl) rfl⟩

end TTS
